import Mathlib

/-!
# Key_Matrix_3x3 (NUC140): interrupt-driven 3-column key-matrix scanner

Shallow embedding of `Key_Matrix_3x3.c`.  The memory-mapped registers and the
two global variables form one explicit state record; every C function that
mutates them becomes a pure state transformer.  Registers are 32-bit unsigned
words held as `Nat`; `current_column` is a C `int` held as `Int`.
-/

namespace KeyMatrix

/-! ## Machine words -/

/-- All-ones 32-bit word, the value of `~0UL` on the Cortex-M0 target. -/
def MASK32 : Nat := 0xFFFFFFFF

/-- The C operator `~` on a 32-bit `unsigned long` operand. -/
def not32 (x : Nat) : Nat := MASK32 ^^^ x

/-- Two's-complement wrap of a mathematical integer into the range of a
32-bit C `int`. -/
def wrapInt32 (x : Int) : Int := (x + 2 ^ 31) % 2 ^ 32 - 2 ^ 31

/-! ## Macros -/

/-- Macro `ONE_SHOT`. -/
def ONE_SHOT : Nat := 0x0
/-- Macro `PERIODIC`. -/
def PERIODIC : Nat := 0x1
/-- Macro `TOGGLE`. -/
def TOGGLE : Nat := 0x2
/-- Macro `CONTINUOUS`. -/
def CONTINUOUS : Nat := 0x3

/-- Macro `HXT_12M`. -/
def HXT_12M : Nat := 0x0
/-- Macro `LXT_32K`. -/
def LXT_32K : Nat := 0x1
/-- Macro `HCLK`. -/
def HCLK : Nat := 0x2
/-- Macro `HIRC_22M`. -/
def HIRC_22M : Nat := 0x7

/-- Macro `COL_1`. -/
def COL_1 : Int := 0
/-- Macro `COL_2`. -/
def COL_2 : Int := 1
/-- Macro `COL_3`. -/
def COL_3 : Int := 2

/-! ## State -/

/-- The two globals of the program and the peripheral registers it touches. -/
structure State where
  /-- Global `current_column`: currently active key-matrix column. -/
  current_column : Int
  /-- Global `receiving`: the debounce flag. -/
  receiving : Bool
  /-- Register `PA->PMD`. -/
  PA_PMD : Nat
  /-- Register `PA->DOUT`. -/
  PA_DOUT : Nat
  /-- Register `PA->IMD`. -/
  PA_IMD : Nat
  /-- Register `PA->IEN`. -/
  PA_IEN : Nat
  /-- Register `PA->ISRC`. -/
  PA_ISRC : Nat
  /-- Register `PB->ISRC`. -/
  PB_ISRC : Nat
  /-- Register `PC->PMD`. -/
  PC_PMD : Nat
  /-- Register `PC->DOUT`. -/
  PC_DOUT : Nat
  /-- Register `CLK->CLKSEL1`. -/
  CLK_CLKSEL1 : Nat
  /-- Register `CLK->APBCLK`. -/
  CLK_APBCLK : Nat
  /-- Register `TIMER0->TCSR`. -/
  TIMER0_TCSR : Nat
  /-- Register `TIMER0->TCMPR`. -/
  TIMER0_TCMPR : Nat
  /-- Register `TIMER0->TISR`. -/
  TIMER0_TISR : Nat
  /-- Register `TIMER1->TCSR`. -/
  TIMER1_TCSR : Nat
  /-- Register `TIMER1->TCMPR`. -/
  TIMER1_TCMPR : Nat
  /-- Register `TIMER1->TISR`. -/
  TIMER1_TISR : Nat
  /-- Register `NVIC->ISER[0]`. -/
  NVIC_ISER0 : Nat
  /-- Register `NVIC->IP[1]`. -/
  NVIC_IP1 : Nat
  /-- Register `NVIC->IP[2]`. -/
  NVIC_IP2 : Nat
  deriving DecidableEq

/-- A state with every register cleared, `current_column = COL_1` and
`receiving = true`: the values `main` assigns to the two globals. -/
def State.zero : State :=
  { current_column := COL_1, receiving := true,
    PA_PMD := 0, PA_DOUT := 0, PA_IMD := 0, PA_IEN := 0, PA_ISRC := 0,
    PB_ISRC := 0, PC_PMD := 0, PC_DOUT := 0, CLK_CLKSEL1 := 0, CLK_APBCLK := 0,
    TIMER0_TCSR := 0, TIMER0_TCMPR := 0, TIMER0_TISR := 0,
    TIMER1_TCSR := 0, TIMER1_TCMPR := 0, TIMER1_TISR := 0,
    NVIC_ISER0 := 0, NVIC_IP1 := 0, NVIC_IP2 := 0 }

/-! ## Helper functions of the program -/

/-- Function `TIMER1_start`: `TIMER1->TCSR |= (1UL << 30)`. -/
def TIMER1_start (s : State) : State :=
  { s with TIMER1_TCSR := s.TIMER1_TCSR ||| (1 <<< 30) }

/-- Function `LED5_toggle`: `PC->DOUT ^= (1UL << 12)`. -/
def LED5_toggle (s : State) : State :=
  { s with PC_DOUT := s.PC_DOUT ^^^ (1 <<< 12) }

/-- Function `LED8_toggle`: `PC->DOUT ^= (1UL << 15)`. -/
def LED8_toggle (s : State) : State :=
  { s with PC_DOUT := s.PC_DOUT ^^^ (1 <<< 15) }

/-- Function `clear_pending_TMR0`: `TIMER0->TISR |= (1UL << 0)`. -/
def clear_pending_TMR0 (s : State) : State :=
  { s with TIMER0_TISR := s.TIMER0_TISR ||| (1 <<< 0) }

/-- Function `clear_pending_TMR1`: `TIMER1->TISR |= (1UL << 0)`. -/
def clear_pending_TMR1 (s : State) : State :=
  { s with TIMER1_TISR := s.TIMER1_TISR ||| (1 <<< 0) }

/-- Function `clear_pending_GPAB_INT`: sets bits 0..15 of `PA->ISRC` and of
`PB->ISRC`. -/
def clear_pending_GPAB_INT (s : State) : State :=
  { s with PA_ISRC := s.PA_ISRC ||| (0xFFFF <<< 0),
           PB_ISRC := s.PB_ISRC ||| (0xFFFF <<< 0) }

/-- Macro `K1_PRESSED`:
`(PA->ISRC & (1UL << 3)) && (current_column == COL_1)`. -/
def K1_PRESSED (s : State) : Bool :=
  (s.PA_ISRC &&& (1 <<< 3) != 0) && (s.current_column == COL_1)

/-- Macro `K9_PRESSED`:
`(PA->ISRC & (1UL << 5)) && (current_column == COL_3)`. -/
def K9_PRESSED (s : State) : Bool :=
  (s.PA_ISRC &&& (1 <<< 5) != 0) && (s.current_column == COL_3)

/-! ## Interrupt service routines -/

/-- First statement of `TMR0_IRQHandler`:
`if (current_column == COL_3) current_column = COL_1; else current_column += 1;`
on the value of `current_column`.  Signed overflow at `INT_MAX` is undefined in
C; the model takes the two's-complement wrap the target performs. -/
def advance_column (c : Int) : Int :=
  if c = COL_3 then COL_1 else wrapInt32 (c + 1)

/-- The `switch (current_column)` of `TMR0_IRQHandler`, as a function from the
switched value and the old `PA->DOUT` to the new `PA->DOUT`.  The switch has no
`default` label: any other value leaves the register alone. -/
def drive_columns (c : Int) (d : Nat) : Nat :=
  if c = COL_1 then
    ((((((d &&& not32 (1 <<< 2)) ||| (1 <<< 1)) ||| (1 <<< 0))
      ||| (1 <<< 3)) ||| (1 <<< 4)) ||| (1 <<< 5))
  else if c = COL_2 then
    ((((((d ||| (1 <<< 2)) &&& not32 (1 <<< 1)) ||| (1 <<< 0))
      ||| (1 <<< 3)) ||| (1 <<< 4)) ||| (1 <<< 5))
  else if c = COL_3 then
    ((((((d ||| (1 <<< 2)) ||| (1 <<< 1)) &&& not32 (1 <<< 0))
      ||| (1 <<< 3)) ||| (1 <<< 4)) ||| (1 <<< 5))
  else d

/-- Function `TMR0_IRQHandler`: the periodic column sweep. -/
def TMR0_IRQHandler (s : State) : State :=
  let s1 : State := { s with current_column := advance_column s.current_column }
  let s2 : State := { s1 with PA_DOUT := drive_columns s1.current_column s1.PA_DOUT }
  clear_pending_TMR0 s2

/-- Function `TMR1_IRQHandler`: the debounce-timer expiry. -/
def TMR1_IRQHandler (s : State) : State :=
  clear_pending_TMR1 { s with receiving := true }

/-- Function `GPAB_IRQHandler`: the row-edge interrupt. -/
def GPAB_IRQHandler (s : State) : State :=
  let s1 : State :=
    if s.receiving then
      let s2 : State :=
        if K1_PRESSED s then LED5_toggle s
        else if K9_PRESSED s then LED8_toggle s
        else s
      TIMER1_start { s2 with receiving := false }
    else s
  clear_pending_GPAB_INT s1

/-! ## Interrupt traces -/

/-- One interrupt delivered to the core.  A row-edge interrupt carries the
value the GPIO hardware has latched in `PA->ISRC` when the handler runs. -/
inductive Event where
  | tick : Event
  | expiry : Event
  | rowEdge (isrc : Nat) : Event
  deriving DecidableEq

/-- Run the handler bound to an interrupt. -/
def step (s : State) : Event → State
  | Event.tick => TMR0_IRQHandler s
  | Event.expiry => TMR1_IRQHandler s
  | Event.rowEdge isrc => GPAB_IRQHandler { s with PA_ISRC := isrc }

/-- Run the handlers of a finite sequence of interrupts, first to last. -/
def run (s : State) (es : List Event) : State :=
  es.foldl step s

/-- The state `main` leaves in the two globals before entering its idle loop:
`current_column = COL_1`, `receiving = true`. -/
def isInitial (s : State) : Prop :=
  s.current_column = COL_1 ∧ s.receiving = true

/-- The column variable holds one of the three column constants. -/
def validColumn (c : Int) : Prop :=
  c = COL_1 ∨ c = COL_2 ∨ c = COL_3

/-- An interrupt other than the debounce-timer expiry. -/
def Event.noExpiry : Event → Bool
  | Event.expiry => false
  | _ => true

/-- Number of handler invocations in a trace that change `PC->DOUT`, the
register holding both LED outputs: the output toggles observed along the run. -/
def toggles (s : State) : List Event → Nat
  | [] => 0
  | e :: es => (if (step s e).PC_DOUT = s.PC_DOUT then 0 else 1) + toggles (step s e) es

/-! ## Initialisers and timer control -/

/-- Function `TIMER0_init`.  The parameters hold the values of the `uint8_t`
arguments `clksrc`, `prescale`, `mode` and of the `uint32_t` argument
`cmp_val`. -/
def TIMER0_init (clksrc prescale mode cmp_val : Nat) (s : State) : State :=
  let s : State := { s with CLK_CLKSEL1 := s.CLK_CLKSEL1 &&& not32 (0x7 <<< 8) }
  let s : State := { s with CLK_CLKSEL1 :=
    if clksrc ≠ HXT_12M ∧ clksrc ≠ LXT_32K ∧ clksrc ≠ HCLK ∧ clksrc ≠ HIRC_22M then
      s.CLK_CLKSEL1 ||| (HXT_12M <<< 8)
    else s.CLK_CLKSEL1 ||| (clksrc <<< 8) }
  let s : State := { s with CLK_APBCLK := s.CLK_APBCLK ||| (1 <<< 2) }
  let s : State := { s with TIMER0_TCMPR :=
    if cmp_val < 2 ∨ cmp_val > 16777215 then 1000 else cmp_val }
  let s : State := { s with TIMER0_TCSR := s.TIMER0_TCSR &&& not32 (0xFF <<< 0) }
  let s : State := { s with TIMER0_TCSR :=
    if prescale < 3 then s.TIMER0_TCSR ||| (0x05 <<< 0)
    else s.TIMER0_TCSR ||| (prescale <<< 0) }
  let s : State := { s with TIMER0_TCSR := s.TIMER0_TCSR ||| (1 <<< 16) }
  let s : State := { s with TIMER0_TCSR := s.TIMER0_TCSR &&& not32 (1 <<< 24) }
  let s : State := { s with TIMER0_TCSR := s.TIMER0_TCSR ||| (1 <<< 26) }
  let s : State := { s with TIMER0_TCSR := s.TIMER0_TCSR &&& not32 (0x3 <<< 27) }
  let s : State := { s with TIMER0_TCSR :=
    if mode ≠ ONE_SHOT ∧ mode ≠ PERIODIC ∧ mode ≠ TOGGLE ∧ mode ≠ CONTINUOUS then
      s.TIMER0_TCSR ||| (PERIODIC <<< 27)
    else s.TIMER0_TCSR ||| (mode <<< 27) }
  let s : State := { s with TIMER0_TCSR := s.TIMER0_TCSR ||| (1 <<< 29) }
  let s : State := { s with NVIC_ISER0 := s.NVIC_ISER0 ||| (1 <<< 8) }
  let s : State := { s with NVIC_IP2 := s.NVIC_IP2 &&& not32 (0x3 <<< 6) }
  { s with NVIC_IP2 := s.NVIC_IP2 ||| (0x1 <<< 6) }

/-- Function `TIMER1_init`.  The parameters hold the values of the `uint8_t`
arguments `clksrc`, `prescale`, `mode` and of the `uint32_t` argument
`cmp_val`. -/
def TIMER1_init (clksrc prescale mode cmp_val : Nat) (s : State) : State :=
  let s : State := { s with CLK_CLKSEL1 := s.CLK_CLKSEL1 &&& not32 (0x7 <<< 12) }
  let s : State := { s with CLK_CLKSEL1 :=
    if clksrc ≠ HXT_12M ∧ clksrc ≠ LXT_32K ∧ clksrc ≠ HCLK ∧ clksrc ≠ HIRC_22M then
      s.CLK_CLKSEL1 ||| (HXT_12M <<< 12)
    else s.CLK_CLKSEL1 ||| (clksrc <<< 12) }
  let s : State := { s with CLK_APBCLK := s.CLK_APBCLK ||| (1 <<< 3) }
  let s : State := { s with TIMER1_TCMPR :=
    if cmp_val < 2 ∨ cmp_val > 16777215 then 1000 else cmp_val }
  let s : State := { s with TIMER1_TCSR := s.TIMER1_TCSR &&& not32 (0xFF <<< 0) }
  let s : State := { s with TIMER1_TCSR :=
    if prescale < 3 then s.TIMER1_TCSR ||| (0x05 <<< 0)
    else s.TIMER1_TCSR ||| (prescale <<< 0) }
  let s : State := { s with TIMER1_TCSR := s.TIMER1_TCSR ||| (1 <<< 16) }
  let s : State := { s with TIMER1_TCSR := s.TIMER1_TCSR &&& not32 (1 <<< 24) }
  let s : State := { s with TIMER1_TCSR := s.TIMER1_TCSR ||| (1 <<< 26) }
  let s : State := { s with TIMER1_TCSR := s.TIMER1_TCSR &&& not32 (0x3 <<< 27) }
  let s : State := { s with TIMER1_TCSR :=
    if mode ≠ ONE_SHOT ∧ mode ≠ PERIODIC ∧ mode ≠ TOGGLE ∧ mode ≠ CONTINUOUS then
      s.TIMER1_TCSR ||| (PERIODIC <<< 27)
    else s.TIMER1_TCSR ||| (mode <<< 27) }
  let s : State := { s with TIMER1_TCSR := s.TIMER1_TCSR ||| (1 <<< 29) }
  let s : State := { s with NVIC_ISER0 := s.NVIC_ISER0 ||| (1 <<< 9) }
  let s : State := { s with NVIC_IP2 := s.NVIC_IP2 &&& not32 (0x3 <<< 14) }
  { s with NVIC_IP2 := s.NVIC_IP2 ||| (0x1 <<< 14) }

/-- Function `Key_Matrix_init`. -/
def Key_Matrix_init (s : State) : State :=
  let s : State :=
    { s with PA_PMD := s.PA_PMD &&& not32 ((0x3 <<< 0) ||| (0x3 <<< 2) ||| (0x3 <<< 4)) }
  let s : State :=
    { s with PA_PMD := s.PA_PMD ||| ((0x1 <<< 0) ||| (0x1 <<< 2) ||| (0x1 <<< 4)) }
  let s : State := { s with PA_DOUT := s.PA_DOUT ||| ((1 <<< 0) ||| (1 <<< 1) ||| (1 <<< 2)) }
  let s : State :=
    { s with PA_IMD := s.PA_IMD &&& not32 ((1 <<< 3) ||| (1 <<< 4) ||| (1 <<< 5)) }
  let s : State := { s with PA_IEN := s.PA_IEN ||| ((1 <<< 3) ||| (1 <<< 4) ||| (1 <<< 5)) }
  let s : State :=
    { s with PA_IEN := s.PA_IEN &&& not32 ((1 <<< 19) ||| (1 <<< 20) ||| (1 <<< 21)) }
  let s : State := { s with PA_ISRC := s.PA_ISRC ||| ((1 <<< 3) ||| (1 <<< 4) ||| (1 <<< 5)) }
  let s : State := { s with NVIC_ISER0 := s.NVIC_ISER0 ||| (1 <<< 4) }
  let s : State := { s with NVIC_IP1 := s.NVIC_IP1 &&& not32 (0x3 <<< 14) }
  { s with NVIC_IP1 := s.NVIC_IP1 ||| (0x1 <<< 14) }

/-- Function `LED5_init`. -/
def LED5_init (s : State) : State :=
  let s : State := { s with PC_PMD := s.PC_PMD &&& not32 (0x3 <<< 24) }
  { s with PC_PMD := s.PC_PMD ||| (0x1 <<< 24) }

/-- Function `LED8_init`. -/
def LED8_init (s : State) : State :=
  let s : State := { s with PC_PMD := s.PC_PMD &&& not32 (0x3 <<< 30) }
  { s with PC_PMD := s.PC_PMD ||| (0x1 <<< 30) }

/-- Function `TIMER0_start`: `TIMER0->TCSR |= (1UL << 30)`. -/
def TIMER0_start (s : State) : State :=
  { s with TIMER0_TCSR := s.TIMER0_TCSR ||| (1 <<< 30) }

/-- Function `TIMER0_stop`: `TIMER0->TCSR &= ~(1UL << 30)`. -/
def TIMER0_stop (s : State) : State :=
  { s with TIMER0_TCSR := s.TIMER0_TCSR &&& not32 (1 <<< 30) }

/-- Function `TIMER0_reset`: `TIMER0->TCSR |= (1UL << 26)`. -/
def TIMER0_reset (s : State) : State :=
  { s with TIMER0_TCSR := s.TIMER0_TCSR ||| (1 <<< 26) }

/-- Function `main` up to its idle loop, from the call of `TIMER0_init` on.  The
calls before it (`SYS_UnlockReg`, `CLKSRC_init`, `CPUCLK_init`) and
`SYS_LockReg` only touch clock and protection registers that are not part of
`State`. -/
def main (s : State) : State :=
  let s := TIMER0_init HXT_12M 5 PERIODIC 1000 s
  let s := TIMER1_init HXT_12M 5 ONE_SHOT 1000000 s
  let s := Key_Matrix_init s
  let s := LED5_init s
  let s := LED8_init s
  let s := TIMER0_stop s
  let s := TIMER0_reset s
  let s := TIMER0_start s
  { s with current_column := COL_1, receiving := true }

/-- Bits `lo .. lo + width - 1` of a register word, read as a number. -/
def bitfield (x lo width : Nat) : Nat := (x >>> lo) % 2 ^ width

/-- The word both timer initialisers leave in their timer's `TCSR`, as a
function of the `prescale` and `mode` arguments and of the word `x` the
register held before: the eight `TCSR` statements of the initialiser in
order. -/
def timer_TCSR (prescale mode x : Nat) : Nat :=
  let x := x &&& not32 (0xFF <<< 0)
  let x := if prescale < 3 then x ||| (0x05 <<< 0) else x ||| (prescale <<< 0)
  let x := x ||| (1 <<< 16)
  let x := x &&& not32 (1 <<< 24)
  let x := x ||| (1 <<< 26)
  let x := x &&& not32 (0x3 <<< 27)
  let x :=
    if mode ≠ ONE_SHOT ∧ mode ≠ PERIODIC ∧ mode ≠ TOGGLE ∧ mode ≠ CONTINUOUS then
      x ||| (PERIODIC <<< 27)
    else x ||| (mode <<< 27)
  x ||| (1 <<< 29)

/-- The word a timer initialiser leaves in `CLK->CLKSEL1` when its clock-source
field starts at bit `pos` (8 for Timer 0, 12 for Timer 1). -/
def timer_CLKSEL1 (pos clksrc x : Nat) : Nat :=
  let x := x &&& not32 (0x7 <<< pos)
  if clksrc ≠ HXT_12M ∧ clksrc ≠ LXT_32K ∧ clksrc ≠ HCLK ∧ clksrc ≠ HIRC_22M then
    x ||| (HXT_12M <<< pos)
  else x ||| (clksrc <<< pos)

/-- The column lines in `PA->DOUT` agree with `current_column`: bit 2 (the line
of `COL_1`), bit 1 (`COL_2`) and bit 0 (`COL_3`) are each 0 exactly when
`current_column` is that column. -/
def columnLinesAgree (s : State) : Prop :=
  s.PA_DOUT.testBit 2 = !decide (s.current_column = COL_1) ∧
  s.PA_DOUT.testBit 1 = !decide (s.current_column = COL_2) ∧
  s.PA_DOUT.testBit 0 = !decide (s.current_column = COL_3)

/-! ## Concrete states -/

/-- A start-up state in which key K1 has latched row 1 (`PA->ISRC` bit 3). -/
def stateK1 : State := { State.zero with PA_ISRC := 8 }

/-- A state with the gate closed, column 1 active and row 1 latched. -/
def stateClosedK1 : State := { State.zero with receiving := false, PA_ISRC := 8 }

/-- A start-up state with column 2 active and every row latched. -/
def stateCol2 : State := { State.zero with current_column := COL_2, PA_ISRC := 56 }

/-- A state whose column variable holds the out-of-range value 5. -/
def stateCol5 : State := { State.zero with current_column := 5 }

/-- A state whose two timer control registers hold all-ones words. -/
def statePrescaled : State :=
  { State.zero with TIMER0_TCSR := 0xFFFFFFFF, TIMER1_TCSR := 0xFFFFFFFF }

/-! ## Basic facts about the handlers -/

theorem TMR0_current_column (s : State) :
    (TMR0_IRQHandler s).current_column = advance_column s.current_column := rfl

theorem advance_column_COL_1 : advance_column COL_1 = COL_2 := by decide

theorem advance_column_COL_2 : advance_column COL_2 = COL_3 := by decide

theorem advance_column_COL_3 : advance_column COL_3 = COL_1 := by decide

theorem and_bit_ne_zero (x k : Nat) :
    (x &&& (1 <<< k) != 0) = x.testBit k := by
  rw [Nat.one_shiftLeft, Nat.and_two_pow]
  cases x.testBit k <;> simp

theorem K1_PRESSED_iff (s : State) :
    K1_PRESSED s = true ↔ s.PA_ISRC.testBit 3 = true ∧ s.current_column = COL_1 := by
  unfold K1_PRESSED
  rw [and_bit_ne_zero]
  simp

theorem K9_PRESSED_iff (s : State) :
    K9_PRESSED s = true ↔ s.PA_ISRC.testBit 5 = true ∧ s.current_column = COL_3 := by
  unfold K9_PRESSED
  rw [and_bit_ne_zero]
  simp

theorem GPAB_PC_DOUT (s : State) :
    (GPAB_IRQHandler s).PC_DOUT =
      if s.receiving = true then
        if K1_PRESSED s = true then s.PC_DOUT ^^^ 2 ^ 12
        else if K9_PRESSED s = true then s.PC_DOUT ^^^ 2 ^ 15
        else s.PC_DOUT
      else s.PC_DOUT := by
  unfold GPAB_IRQHandler
  cases s.receiving <;> cases K1_PRESSED s <;> cases K9_PRESSED s <;> rfl

theorem GPAB_receiving (s : State) : (GPAB_IRQHandler s).receiving = false := by
  unfold GPAB_IRQHandler
  cases h : s.receiving
  · simp [h, clear_pending_GPAB_INT]
  · simp [h, clear_pending_GPAB_INT, TIMER1_start]

theorem GPAB_TIMER1_TCSR (s : State) :
    (GPAB_IRQHandler s).TIMER1_TCSR =
      if s.receiving = true then s.TIMER1_TCSR ||| 2 ^ 30 else s.TIMER1_TCSR := by
  unfold GPAB_IRQHandler
  cases s.receiving <;> cases K1_PRESSED s <;> cases K9_PRESSED s <;> rfl

theorem GPAB_current_column (s : State) :
    (GPAB_IRQHandler s).current_column = s.current_column := by
  unfold GPAB_IRQHandler
  cases s.receiving <;> cases K1_PRESSED s <;> cases K9_PRESSED s <;> rfl

theorem testBit_xor_two_pow_self (x k : Nat) :
    (x ^^^ 2 ^ k).testBit k = !x.testBit k := by
  simp [Nat.testBit_two_pow_self]

theorem testBit_xor_two_pow_of_ne (x k i : Nat) (h : i ≠ k) :
    (x ^^^ 2 ^ k).testBit i = x.testBit i := by
  simp [Nat.testBit_two_pow_of_ne (Ne.symm h)]

theorem testBit_or_two_pow_self (x k : Nat) :
    (x ||| 2 ^ k).testBit k = true := by
  simp [Nat.testBit_two_pow_self]

theorem TMR0_PA_DOUT (s : State) :
    (TMR0_IRQHandler s).PA_DOUT
      = drive_columns (advance_column s.current_column) s.PA_DOUT := rfl

theorem drive_columns_COL_1 (d : Nat) :
    (drive_columns COL_1 d).testBit 2 = false ∧ (drive_columns COL_1 d).testBit 1 = true ∧
    (drive_columns COL_1 d).testBit 0 = true ∧ (drive_columns COL_1 d).testBit 3 = true ∧
    (drive_columns COL_1 d).testBit 4 = true ∧ (drive_columns COL_1 d).testBit 5 = true := by
  simp +decide [drive_columns, not32, MASK32, COL_1, Nat.testBit_or, Nat.testBit_and]

theorem drive_columns_COL_2 (d : Nat) :
    (drive_columns COL_2 d).testBit 2 = true ∧ (drive_columns COL_2 d).testBit 1 = false ∧
    (drive_columns COL_2 d).testBit 0 = true ∧ (drive_columns COL_2 d).testBit 3 = true ∧
    (drive_columns COL_2 d).testBit 4 = true ∧ (drive_columns COL_2 d).testBit 5 = true := by
  simp +decide [drive_columns, not32, MASK32, COL_1, COL_2, Nat.testBit_or, Nat.testBit_and]

theorem drive_columns_COL_3 (d : Nat) :
    (drive_columns COL_3 d).testBit 2 = true ∧ (drive_columns COL_3 d).testBit 1 = true ∧
    (drive_columns COL_3 d).testBit 0 = false ∧ (drive_columns COL_3 d).testBit 3 = true ∧
    (drive_columns COL_3 d).testBit 4 = true ∧ (drive_columns COL_3 d).testBit 5 = true := by
  simp +decide [drive_columns, not32, MASK32, COL_1, COL_2, COL_3, Nat.testBit_or, Nat.testBit_and]

theorem run_nil (s : State) : run s [] = s := rfl

theorem run_cons (s : State) (e : Event) (es : List Event) :
    run s (e :: es) = run (step s e) es := rfl

theorem run_append (s : State) (es fs : List Event) :
    run s (es ++ fs) = run (run s es) fs := by
  simp [run, List.foldl_append]

theorem step_validColumn (s : State) (e : Event) (h : validColumn s.current_column) :
    validColumn (step s e).current_column := by
  cases e with
  | tick =>
    show validColumn (TMR0_IRQHandler s).current_column
    rw [TMR0_current_column]
    rcases h with h | h | h <;> rw [h]
    · exact Or.inr (Or.inl advance_column_COL_1)
    · exact Or.inr (Or.inr advance_column_COL_2)
    · exact Or.inl advance_column_COL_3
  | expiry => exact h
  | rowEdge isrc =>
    show validColumn (GPAB_IRQHandler _).current_column
    rw [GPAB_current_column]
    exact h

theorem step_receiving_closed (s : State) (e : Event) (hrecv : s.receiving = false)
    (he : e.noExpiry = true) : (step s e).receiving = false := by
  cases e with
  | tick => exact hrecv
  | expiry => exact absurd he (by decide)
  | rowEdge isrc => exact GPAB_receiving _

theorem step_PC_DOUT_closed (s : State) (e : Event) (hrecv : s.receiving = false)
    (he : e.noExpiry = true) : (step s e).PC_DOUT = s.PC_DOUT := by
  cases e with
  | tick => rfl
  | expiry => exact absurd he (by decide)
  | rowEdge isrc =>
    show (GPAB_IRQHandler _).PC_DOUT = _
    rw [GPAB_PC_DOUT]
    simp [hrecv]

theorem run_closed (es : List Event) :
    ∀ s : State, s.receiving = false → (∀ e ∈ es, e.noExpiry = true) →
      (run s es).receiving = false ∧ (run s es).PC_DOUT = s.PC_DOUT := by
  induction es with
  | nil => intro s hrecv _; exact ⟨hrecv, rfl⟩
  | cons e es ih =>
    intro s hrecv hno
    have he : e.noExpiry = true := hno e (List.mem_cons_self e es)
    have hrest : ∀ e' ∈ es, e'.noExpiry = true :=
      fun e' he' => hno e' (List.mem_cons_of_mem e he')
    have h := ih (step s e) (step_receiving_closed s e hrecv he) hrest
    rw [run_cons]
    exact ⟨h.1, h.2.trans (step_PC_DOUT_closed s e hrecv he)⟩

theorem run_PC_DOUT_cases (es : List Event) :
    ∀ s : State, (∀ e ∈ es, e.noExpiry = true) →
      (run s es).PC_DOUT = s.PC_DOUT ∨ (run s es).PC_DOUT = s.PC_DOUT ^^^ 2 ^ 12 ∨
      (run s es).PC_DOUT = s.PC_DOUT ^^^ 2 ^ 15 := by
  induction es with
  | nil => intro s _; exact Or.inl rfl
  | cons e es ih =>
    intro s hno
    have hrest : ∀ e' ∈ es, e'.noExpiry = true :=
      fun e' he' => hno e' (List.mem_cons_of_mem e he')
    rw [run_cons]
    cases e with
    | tick => exact ih (step s Event.tick) hrest
    | expiry => exact absurd (hno Event.expiry (List.mem_cons_self _ _)) (by decide)
    | rowEdge isrc =>
      have hc := (run_closed es (step s (Event.rowEdge isrc)) (GPAB_receiving _) hrest).2
      rw [hc]
      show (GPAB_IRQHandler _).PC_DOUT = _ ∨ (GPAB_IRQHandler _).PC_DOUT = _ ∨
        (GPAB_IRQHandler _).PC_DOUT = _
      rw [GPAB_PC_DOUT]
      split_ifs
      · exact Or.inr (Or.inl rfl)
      · exact Or.inr (Or.inr rfl)
      · exact Or.inl rfl
      · exact Or.inl rfl

theorem xor_two_pow_ne (x k : Nat) : x ^^^ 2 ^ k ≠ x := by
  intro h
  have hb := testBit_xor_two_pow_self x k
  rw [h] at hb
  cases hx : x.testBit k <;> rw [hx] at hb <;> exact absurd hb (by decide)

theorem run_validColumn (es : List Event) :
    ∀ s : State, validColumn s.current_column → validColumn (run s es).current_column := by
  induction es with
  | nil => intro s h; exact h
  | cons e es ih => intro s h; exact ih (step s e) (step_validColumn s e h)

theorem toggles_closed (es : List Event) :
    ∀ s : State, s.receiving = false → (∀ e ∈ es, e.noExpiry = true) →
      toggles s es = 0 := by
  induction es with
  | nil => intro s _ _; rfl
  | cons e es ih =>
    intro s hrecv hno
    have he : e.noExpiry = true := hno e (List.mem_cons_self e es)
    have hrest : ∀ e' ∈ es, e'.noExpiry = true :=
      fun e' he' => hno e' (List.mem_cons_of_mem e he')
    show (if (step s e).PC_DOUT = s.PC_DOUT then 0 else 1) + toggles (step s e) es = 0
    rw [if_pos (step_PC_DOUT_closed s e hrecv he),
      ih (step s e) (step_receiving_closed s e hrecv he) hrest]

theorem toggles_le_one (es : List Event) :
    ∀ s : State, (∀ e ∈ es, e.noExpiry = true) → toggles s es ≤ 1 := by
  induction es with
  | nil => intro s _; exact Nat.zero_le 1
  | cons e es ih =>
    intro s hno
    have hrest : ∀ e' ∈ es, e'.noExpiry = true :=
      fun e' he' => hno e' (List.mem_cons_of_mem e he')
    show (if (step s e).PC_DOUT = s.PC_DOUT then 0 else 1) + toggles (step s e) es ≤ 1
    cases e with
    | tick =>
      have hpc : (step s Event.tick).PC_DOUT = s.PC_DOUT := rfl
      rw [if_pos hpc, Nat.zero_add]
      exact ih _ hrest
    | expiry => exact absurd (hno Event.expiry (List.mem_cons_self _ _)) (by decide)
    | rowEdge isrc =>
      have hz : toggles (step s (Event.rowEdge isrc)) es = 0 :=
        toggles_closed es _ (GPAB_receiving _) hrest
      rw [hz]
      split_ifs <;> simp

theorem rowEdge_K1_PC_DOUT (s : State) (isrc : Nat) (hrecv : s.receiving = true)
    (hcol : s.current_column = COL_1) (hbit : isrc.testBit 3 = true) :
    (step s (Event.rowEdge isrc)).PC_DOUT = s.PC_DOUT ^^^ 2 ^ 12 := by
  show (GPAB_IRQHandler _).PC_DOUT = _
  have hk1 : K1_PRESSED { s with PA_ISRC := isrc } = true :=
    (K1_PRESSED_iff _).2 ⟨hbit, hcol⟩
  rw [GPAB_PC_DOUT, if_pos hrecv, if_pos hk1]

theorem rowEdge_K9_PC_DOUT (s : State) (isrc : Nat) (hrecv : s.receiving = true)
    (hcol : s.current_column = COL_3) (hbit : isrc.testBit 5 = true) :
    (step s (Event.rowEdge isrc)).PC_DOUT = s.PC_DOUT ^^^ 2 ^ 15 := by
  show (GPAB_IRQHandler _).PC_DOUT = _
  have hk1 : ¬ K1_PRESSED { s with PA_ISRC := isrc } = true := by
    rw [K1_PRESSED_iff]
    rintro ⟨_, hc⟩
    have hc' : s.current_column = COL_1 := hc
    rw [hcol] at hc'
    exact absurd hc' (by decide)
  have hk9 : K9_PRESSED { s with PA_ISRC := isrc } = true :=
    (K9_PRESSED_iff _).2 ⟨hbit, hcol⟩
  rw [GPAB_PC_DOUT, if_pos hrecv, if_neg hk1, if_pos hk9]

theorem differ_one_bit (x y : Nat) (k : Nat) (h : y = x ^^^ 2 ^ k) (i : Nat)
    (hi : y.testBit i ≠ x.testBit i) : i = k := by
  by_contra hne
  exact hi (by rw [h]; exact testBit_xor_two_pow_of_ne x k i hne)

/-! ## Basic facts about the initialisers -/

theorem TIMER0_init_TCSR (c p m v : Nat) (s : State) :
    (TIMER0_init c p m v s).TIMER0_TCSR = timer_TCSR p m s.TIMER0_TCSR := rfl

theorem TIMER1_init_TCSR (c p m v : Nat) (s : State) :
    (TIMER1_init c p m v s).TIMER1_TCSR = timer_TCSR p m s.TIMER1_TCSR := rfl

theorem TIMER0_init_CLKSEL1 (c p m v : Nat) (s : State) :
    (TIMER0_init c p m v s).CLK_CLKSEL1 = timer_CLKSEL1 8 c s.CLK_CLKSEL1 := rfl

theorem TIMER1_init_CLKSEL1 (c p m v : Nat) (s : State) :
    (TIMER1_init c p m v s).CLK_CLKSEL1 = timer_CLKSEL1 12 c s.CLK_CLKSEL1 := rfl

theorem TIMER0_init_TCMPR (c p m v : Nat) (s : State) :
    (TIMER0_init c p m v s).TIMER0_TCMPR
      = if v < 2 ∨ v > 16777215 then 1000 else v := rfl

theorem TIMER1_init_TCMPR (c p m v : Nat) (s : State) :
    (TIMER1_init c p m v s).TIMER1_TCMPR
      = if v < 2 ∨ v > 16777215 then 1000 else v := rfl

theorem GPAB_PA_ISRC (s : State) :
    (GPAB_IRQHandler s).PA_ISRC = s.PA_ISRC ||| (2 ^ 16 - 1) := by
  unfold GPAB_IRQHandler
  cases s.receiving <;> cases K1_PRESSED s <;> cases K9_PRESSED s <;> rfl

theorem GPAB_PB_ISRC (s : State) :
    (GPAB_IRQHandler s).PB_ISRC = s.PB_ISRC ||| (2 ^ 16 - 1) := by
  unfold GPAB_IRQHandler
  cases s.receiving <;> cases K1_PRESSED s <;> cases K9_PRESSED s <;> rfl

theorem testBit_or_low_mask (x n i : Nat) (h : i < n) :
    (x ||| (2 ^ n - 1)).testBit i = true := by
  simp [h]

theorem LED5_toggle_PC_DOUT (s : State) :
    (LED5_toggle s).PC_DOUT = s.PC_DOUT ^^^ 2 ^ 12 := rfl

theorem LED8_toggle_PC_DOUT (s : State) :
    (LED8_toggle s).PC_DOUT = s.PC_DOUT ^^^ 2 ^ 15 := rfl

theorem xor_right_comm (x a b : Nat) : (x ^^^ a) ^^^ b = (x ^^^ b) ^^^ a := by
  rw [Nat.xor_assoc, Nat.xor_comm a b, ← Nat.xor_assoc]

theorem bitfield_eq_of_testBit (x lo w v : Nat) (hv : v < 2 ^ w)
    (h : ∀ i, i < w → x.testBit (lo + i) = v.testBit i) : bitfield x lo w = v := by
  apply Nat.eq_of_testBit_eq
  intro i
  unfold bitfield
  rw [Nat.testBit_mod_two_pow, Nat.testBit_shiftRight]
  by_cases hi : i < w
  · simp [hi, h i hi]
  · have hle : 2 ^ w ≤ 2 ^ i := Nat.pow_le_pow_right (by decide) (Nat.le_of_not_lt hi)
    simp [hi, Nat.testBit_lt_two_pow (Nat.lt_of_lt_of_le hv hle)]

theorem mode_word_cases (m : Nat) :
    (if m ≠ ONE_SHOT ∧ m ≠ PERIODIC ∧ m ≠ TOGGLE ∧ m ≠ CONTINUOUS then PERIODIC else m)
      = (if m = ONE_SHOT ∨ m = PERIODIC ∨ m = TOGGLE ∨ m = CONTINUOUS then m else PERIODIC) := by
  by_cases h : m = ONE_SHOT ∨ m = PERIODIC ∨ m = TOGGLE ∨ m = CONTINUOUS
  · rw [if_pos h, if_neg]
    rintro ⟨h0, h1, h2, h3⟩
    rcases h with h | h | h | h
    · exact h0 h
    · exact h1 h
    · exact h2 h
    · exact h3 h
  · rw [if_neg h, if_pos]
    exact ⟨fun e => h (Or.inl e), fun e => h (Or.inr (Or.inl e)),
      fun e => h (Or.inr (Or.inr (Or.inl e))), fun e => h (Or.inr (Or.inr (Or.inr e)))⟩

theorem timer_TCSR_eq (p m x : Nat) :
    timer_TCSR p m x =
      (((((((x &&& not32 (0xFF <<< 0)) ||| (if p < 3 then 5 else p)) ||| (1 <<< 16))
        &&& not32 (1 <<< 24)) ||| (1 <<< 26)) &&& not32 (0x3 <<< 27))
        ||| ((if m = ONE_SHOT ∨ m = PERIODIC ∨ m = TOGGLE ∨ m = CONTINUOUS then m
              else PERIODIC) <<< 27)) ||| (1 <<< 29) := by
  rw [← mode_word_cases]
  unfold timer_TCSR
  by_cases hp : p < 3
  · by_cases hm : m ≠ ONE_SHOT ∧ m ≠ PERIODIC ∧ m ≠ TOGGLE ∧ m ≠ CONTINUOUS
    · simp only [Nat.shiftLeft_zero, if_pos hp, if_pos hm]
    · simp only [Nat.shiftLeft_zero, if_pos hp, if_neg hm]
  · by_cases hm : m ≠ ONE_SHOT ∧ m ≠ PERIODIC ∧ m ≠ TOGGLE ∧ m ≠ CONTINUOUS
    · simp only [Nat.shiftLeft_zero, if_neg hp, if_pos hm]
    · simp only [Nat.shiftLeft_zero, if_neg hp, if_neg hm]

theorem mode_word_le (m : Nat) :
    (if m = ONE_SHOT ∨ m = PERIODIC ∨ m = TOGGLE ∨ m = CONTINUOUS then m else PERIODIC) < 4 := by
  simp only [ONE_SHOT, PERIODIC, TOGGLE, CONTINUOUS]
  split_ifs <;> omega

theorem timer_TCSR_mode_field (p m x : Nat) :
    bitfield (timer_TCSR p m x) 27 2
      = if m = ONE_SHOT ∨ m = PERIODIC ∨ m = TOGGLE ∨ m = CONTINUOUS then m else PERIODIC := by
  rw [timer_TCSR_eq]
  have hlt := mode_word_le m
  generalize (if m = ONE_SHOT ∨ m = PERIODIC ∨ m = TOGGLE ∨ m = CONTINUOUS then m
    else PERIODIC) = w at hlt ⊢
  generalize (if p < 3 then 5 else p) = q
  apply bitfield_eq_of_testBit _ _ _ _ hlt
  intro i hi
  simp only [Nat.testBit_or, Nat.testBit_and]
  interval_cases w <;> interval_cases i <;>
    cases q.testBit _ <;> cases x.testBit _ <;> decide

theorem prescale_word_le (p : Nat) (hp : p ≤ 255) : (if p < 3 then 5 else p) < 2 ^ 8 := by
  split_ifs <;> omega

theorem timer_TCSR_prescale_field (p m x : Nat) (hp : p ≤ 255) :
    bitfield (timer_TCSR p m x) 0 8 = if p < 3 then 5 else p := by
  rw [timer_TCSR_eq]
  have hlt := mode_word_le m
  have hq := prescale_word_le p hp
  generalize (if m = ONE_SHOT ∨ m = PERIODIC ∨ m = TOGGLE ∨ m = CONTINUOUS then m
    else PERIODIC) = w at hlt ⊢
  generalize (if p < 3 then 5 else p) = q at hq ⊢
  apply bitfield_eq_of_testBit _ _ _ _ hq
  intro i hi
  simp only [Nat.testBit_or, Nat.testBit_and]
  interval_cases w <;> interval_cases i <;>
    cases q.testBit _ <;> cases x.testBit _ <;> decide

theorem main_NVIC_IP1 (s : State) :
    (main s).NVIC_IP1 = (s.NVIC_IP1 &&& not32 (0x3 <<< 14)) ||| (0x1 <<< 14) := rfl

theorem main_NVIC_IP2 (s : State) :
    (main s).NVIC_IP2
      = (((s.NVIC_IP2 &&& not32 (0x3 <<< 6)) ||| (0x1 <<< 6))
          &&& not32 (0x3 <<< 14)) ||| (0x1 <<< 14) := rfl

theorem main_TIMER1_TCSR (s : State) :
    (main s).TIMER1_TCSR = timer_TCSR 5 ONE_SHOT s.TIMER1_TCSR := rfl

theorem main_TIMER1_TCMPR (s : State) : (main s).TIMER1_TCMPR = 1000000 := rfl

theorem main_isInitial (s : State) : isInitial (main s) := ⟨rfl, rfl⟩

/-! ## Column lines along a trace -/

theorem GPAB_PA_DOUT (s : State) : (GPAB_IRQHandler s).PA_DOUT = s.PA_DOUT := by
  unfold GPAB_IRQHandler
  cases s.receiving <;> cases K1_PRESSED s <;> cases K9_PRESSED s <;> rfl

theorem tick_columnLinesAgree (s : State) (h : validColumn s.current_column) :
    columnLinesAgree (TMR0_IRQHandler s) := by
  unfold columnLinesAgree
  rw [TMR0_PA_DOUT, TMR0_current_column]
  rcases h with h | h | h <;> rw [h]
  · rw [advance_column_COL_1]
    have hd := drive_columns_COL_2 s.PA_DOUT
    exact ⟨hd.1, hd.2.1, hd.2.2.1⟩
  · rw [advance_column_COL_2]
    have hd := drive_columns_COL_3 s.PA_DOUT
    exact ⟨hd.1, hd.2.1, hd.2.2.1⟩
  · rw [advance_column_COL_3]
    have hd := drive_columns_COL_1 s.PA_DOUT
    exact ⟨hd.1, hd.2.1, hd.2.2.1⟩

theorem step_columnLinesAgree (s : State) (e : Event) (he : e ≠ Event.tick)
    (h : columnLinesAgree s) : columnLinesAgree (step s e) := by
  cases e with
  | tick => exact absurd rfl he
  | expiry => exact h
  | rowEdge isrc =>
    unfold columnLinesAgree
    show (GPAB_IRQHandler _).PA_DOUT.testBit 2 = _ ∧ (GPAB_IRQHandler _).PA_DOUT.testBit 1 = _ ∧
      (GPAB_IRQHandler _).PA_DOUT.testBit 0 = _
    rw [GPAB_PA_DOUT]
    show _ = !decide ((GPAB_IRQHandler _).current_column = COL_1) ∧
      _ = !decide ((GPAB_IRQHandler _).current_column = COL_2) ∧
      _ = !decide ((GPAB_IRQHandler _).current_column = COL_3)
    rw [GPAB_current_column]
    exact h

theorem run_columnLinesAgree (es : List Event) :
    ∀ s : State, validColumn s.current_column →
      (columnLinesAgree s ∨ Event.tick ∈ es) → columnLinesAgree (run s es) := by
  induction es with
  | nil =>
    intro s _ h
    rcases h with h | h
    · exact h
    · exact absurd h (List.not_mem_nil _)
  | cons e es ih =>
    intro s hv h
    rw [run_cons]
    apply ih (step s e) (step_validColumn s e hv)
    by_cases he : e = Event.tick
    · subst he
      exact Or.inl (tick_columnLinesAgree s hv)
    · rcases h with h | h
      · exact Or.inl (step_columnLinesAgree s e he h)
      · rcases List.mem_cons.1 h with h | h
        · exact absurd h.symm he
        · exact Or.inr h

/-! ## Registers shared by the two timer initialisers -/

theorem bitfield_congr (x y lo w : Nat)
    (h : ∀ i, i < w → x.testBit (lo + i) = y.testBit (lo + i)) :
    bitfield x lo w = bitfield y lo w := by
  apply Nat.eq_of_testBit_eq
  intro i
  unfold bitfield
  rw [Nat.testBit_mod_two_pow, Nat.testBit_shiftRight, Nat.testBit_mod_two_pow,
    Nat.testBit_shiftRight]
  by_cases hi : i < w
  · rw [h i hi]
  · simp [hi]

theorem field_commute (x m1 m2 v1 v2 : Nat) (h1 : v1 &&& m2 = v1) (h2 : v2 &&& m1 = v2) :
    (((x &&& m1) ||| v1) &&& m2) ||| v2 = (((x &&& m2) ||| v2) &&& m1) ||| v1 := by
  apply Nat.eq_of_testBit_eq
  intro i
  have e1 : (v1.testBit i && m2.testBit i) = v1.testBit i := by
    rw [← Nat.testBit_and, h1]
  have e2 : (v2.testBit i && m1.testBit i) = v2.testBit i := by
    rw [← Nat.testBit_and, h2]
  simp only [Nat.testBit_or, Nat.testBit_and]
  revert e1 e2
  cases x.testBit i <;> cases m1.testBit i <;> cases m2.testBit i <;>
    cases v1.testBit i <;> cases v2.testBit i <;> decide

theorem lor_right_comm (x a b : Nat) : (x ||| a) ||| b = (x ||| b) ||| a := by
  rw [Nat.or_assoc, Nat.or_comm a b, ← Nat.or_assoc]

theorem clk_word_cases (c : Nat) :
    (if c ≠ HXT_12M ∧ c ≠ LXT_32K ∧ c ≠ HCLK ∧ c ≠ HIRC_22M then HXT_12M else c) = 0 ∨
    (if c ≠ HXT_12M ∧ c ≠ LXT_32K ∧ c ≠ HCLK ∧ c ≠ HIRC_22M then HXT_12M else c) = 1 ∨
    (if c ≠ HXT_12M ∧ c ≠ LXT_32K ∧ c ≠ HCLK ∧ c ≠ HIRC_22M then HXT_12M else c) = 2 ∨
    (if c ≠ HXT_12M ∧ c ≠ LXT_32K ∧ c ≠ HCLK ∧ c ≠ HIRC_22M then HXT_12M else c) = 7 := by
  simp only [HXT_12M, LXT_32K, HCLK, HIRC_22M]
  split_ifs with h
  · exact Or.inl rfl
  · omega

theorem timer_CLKSEL1_eq (pos c x : Nat) :
    timer_CLKSEL1 pos c x = (x &&& not32 (0x7 <<< pos)) |||
      ((if c ≠ HXT_12M ∧ c ≠ LXT_32K ∧ c ≠ HCLK ∧ c ≠ HIRC_22M then HXT_12M else c)
        <<< pos) := by
  unfold timer_CLKSEL1
  by_cases h : c ≠ HXT_12M ∧ c ≠ LXT_32K ∧ c ≠ HCLK ∧ c ≠ HIRC_22M
  · simp only [if_pos h]
  · simp only [if_neg h]

theorem timer_CLKSEL1_commute (c0 c1 x : Nat) :
    timer_CLKSEL1 12 c1 (timer_CLKSEL1 8 c0 x)
      = timer_CLKSEL1 8 c0 (timer_CLKSEL1 12 c1 x) := by
  simp only [timer_CLKSEL1_eq]
  rcases clk_word_cases c0 with h0 | h0 | h0 | h0 <;>
    rcases clk_word_cases c1 with h1 | h1 | h1 | h1 <;>
    rw [h0, h1] <;> exact field_commute _ _ _ _ _ (by decide) (by decide)

theorem timer1_CLKSEL1_frame (c x : Nat) :
    bitfield (timer_CLKSEL1 12 c x) 8 3 = bitfield x 8 3 := by
  rw [timer_CLKSEL1_eq]
  apply bitfield_congr
  intro i hi
  simp only [Nat.testBit_or, Nat.testBit_and]
  rcases clk_word_cases c with h | h | h | h <;> rw [h] <;>
    interval_cases i <;> cases x.testBit _ <;> decide

theorem timer0_CLKSEL1_frame (c x : Nat) :
    bitfield (timer_CLKSEL1 8 c x) 12 3 = bitfield x 12 3 := by
  rw [timer_CLKSEL1_eq]
  apply bitfield_congr
  intro i hi
  simp only [Nat.testBit_or, Nat.testBit_and]
  rcases clk_word_cases c with h | h | h | h <;> rw [h] <;>
    interval_cases i <;> cases x.testBit _ <;> decide

theorem TIMER0_init_APBCLK (c p m v : Nat) (s : State) :
    (TIMER0_init c p m v s).CLK_APBCLK = s.CLK_APBCLK ||| (1 <<< 2) := rfl

theorem TIMER1_init_APBCLK (c p m v : Nat) (s : State) :
    (TIMER1_init c p m v s).CLK_APBCLK = s.CLK_APBCLK ||| (1 <<< 3) := rfl

theorem TIMER0_init_ISER0 (c p m v : Nat) (s : State) :
    (TIMER0_init c p m v s).NVIC_ISER0 = s.NVIC_ISER0 ||| (1 <<< 8) := rfl

theorem TIMER1_init_ISER0 (c p m v : Nat) (s : State) :
    (TIMER1_init c p m v s).NVIC_ISER0 = s.NVIC_ISER0 ||| (1 <<< 9) := rfl

theorem TIMER0_init_IP2 (c p m v : Nat) (s : State) :
    (TIMER0_init c p m v s).NVIC_IP2
      = (s.NVIC_IP2 &&& not32 (0x3 <<< 6)) ||| (0x1 <<< 6) := rfl

theorem TIMER1_init_IP2 (c p m v : Nat) (s : State) :
    (TIMER1_init c p m v s).NVIC_IP2
      = (s.NVIC_IP2 &&& not32 (0x3 <<< 14)) ||| (0x1 <<< 14) := rfl

theorem timer_init_commute (c0 p0 m0 v0 c1 p1 m1 v1 : Nat) (s : State) :
    TIMER1_init c1 p1 m1 v1 (TIMER0_init c0 p0 m0 v0 s)
      = TIMER0_init c0 p0 m0 v0 (TIMER1_init c1 p1 m1 v1 s) := by
  have hC : (TIMER1_init c1 p1 m1 v1 (TIMER0_init c0 p0 m0 v0 s)).CLK_CLKSEL1
      = (TIMER0_init c0 p0 m0 v0 (TIMER1_init c1 p1 m1 v1 s)).CLK_CLKSEL1 := by
    simp only [TIMER0_init_CLKSEL1, TIMER1_init_CLKSEL1]
    exact timer_CLKSEL1_commute c0 c1 _
  have hA : (TIMER1_init c1 p1 m1 v1 (TIMER0_init c0 p0 m0 v0 s)).CLK_APBCLK
      = (TIMER0_init c0 p0 m0 v0 (TIMER1_init c1 p1 m1 v1 s)).CLK_APBCLK := by
    simp only [TIMER0_init_APBCLK, TIMER1_init_APBCLK]
    exact lor_right_comm _ _ _
  have hI : (TIMER1_init c1 p1 m1 v1 (TIMER0_init c0 p0 m0 v0 s)).NVIC_ISER0
      = (TIMER0_init c0 p0 m0 v0 (TIMER1_init c1 p1 m1 v1 s)).NVIC_ISER0 := by
    simp only [TIMER0_init_ISER0, TIMER1_init_ISER0]
    exact lor_right_comm _ _ _
  have hP : (TIMER1_init c1 p1 m1 v1 (TIMER0_init c0 p0 m0 v0 s)).NVIC_IP2
      = (TIMER0_init c0 p0 m0 v0 (TIMER1_init c1 p1 m1 v1 s)).NVIC_IP2 := by
    simp only [TIMER0_init_IP2, TIMER1_init_IP2]
    exact field_commute _ _ _ _ _ (by decide) (by decide)
  have e : TIMER1_init c1 p1 m1 v1 (TIMER0_init c0 p0 m0 v0 s)
      = { TIMER0_init c0 p0 m0 v0 (TIMER1_init c1 p1 m1 v1 s) with
          CLK_CLKSEL1 := (TIMER1_init c1 p1 m1 v1 (TIMER0_init c0 p0 m0 v0 s)).CLK_CLKSEL1,
          CLK_APBCLK := (TIMER1_init c1 p1 m1 v1 (TIMER0_init c0 p0 m0 v0 s)).CLK_APBCLK,
          NVIC_ISER0 := (TIMER1_init c1 p1 m1 v1 (TIMER0_init c0 p0 m0 v0 s)).NVIC_ISER0,
          NVIC_IP2 := (TIMER1_init c1 p1 m1 v1 (TIMER0_init c0 p0 m0 v0 s)).NVIC_IP2 } := rfl
  rw [e, hC, hA, hI, hP]

theorem testBit_or_one_shiftLeft_of_ne (x k i : Nat) (h : i ≠ k) :
    (x ||| (1 <<< k)).testBit i = x.testBit i := by
  rw [Nat.one_shiftLeft, Nat.testBit_or, Nat.testBit_two_pow_of_ne (Ne.symm h),
    Bool.or_false]

theorem IP2_frame_low (x : Nat) :
    bitfield ((x &&& not32 (0x3 <<< 14)) ||| (0x1 <<< 14)) 6 2 = bitfield x 6 2 := by
  apply bitfield_congr
  intro i hi
  simp only [Nat.testBit_or, Nat.testBit_and]
  interval_cases i <;> cases x.testBit _ <;> decide

theorem IP2_frame_high (x : Nat) :
    bitfield ((x &&& not32 (0x3 <<< 6)) ||| (0x1 <<< 6)) 14 2 = bitfield x 14 2 := by
  apply bitfield_congr
  intro i hi
  simp only [Nat.testBit_or, Nat.testBit_and]
  interval_cases i <;> cases x.testBit _ <;> decide

/-! ## Claims -/

/-- C1: from a valid column one `TMR0_IRQHandler` tick maps `COL_1` to `COL_2`,
`COL_2` to `COL_3` and `COL_3` to `COL_1`; three consecutive ticks return
`current_column` to its starting value, and the columns held after the first,
second and third tick are pairwise distinct. -/
theorem C1_column_cycle (s : State) (h : validColumn s.current_column) :
    (s.current_column = COL_1 → (TMR0_IRQHandler s).current_column = COL_2) ∧
    (s.current_column = COL_2 → (TMR0_IRQHandler s).current_column = COL_3) ∧
    (s.current_column = COL_3 → (TMR0_IRQHandler s).current_column = COL_1) ∧
    (TMR0_IRQHandler (TMR0_IRQHandler (TMR0_IRQHandler s))).current_column
      = s.current_column ∧
    (TMR0_IRQHandler s).current_column
      ≠ (TMR0_IRQHandler (TMR0_IRQHandler s)).current_column ∧
    (TMR0_IRQHandler (TMR0_IRQHandler s)).current_column
      ≠ (TMR0_IRQHandler (TMR0_IRQHandler (TMR0_IRQHandler s))).current_column ∧
    (TMR0_IRQHandler s).current_column
      ≠ (TMR0_IRQHandler (TMR0_IRQHandler (TMR0_IRQHandler s))).current_column := by
  simp only [TMR0_current_column]
  rcases h with h | h | h <;> rw [h] <;> decide

/-- Witness for C1 at the start-up state. -/
theorem C1_column_cycle_witness :
    validColumn State.zero.current_column ∧
    (TMR0_IRQHandler (TMR0_IRQHandler (TMR0_IRQHandler State.zero))).current_column
      = State.zero.current_column :=
  ⟨Or.inl rfl, (C1_column_cycle State.zero (Or.inl rfl)).2.2.2.1⟩

/-- C2: with the gate open (`receiving = true`), when `PA->ISRC` bit 3 is set
and `current_column = COL_1` the handler flips bit 12 of `PC->DOUT` and no
other bit; when `PA->ISRC` bit 5 is set and `current_column = COL_3` it flips
bit 15 and no other bit; in both cases `receiving` becomes false and the start
bit 30 of `TIMER1->TCSR` is set. -/
theorem C2_bound_pair_toggles_once (s : State) (hrecv : s.receiving = true) :
    (s.PA_ISRC.testBit 3 = true ∧ s.current_column = COL_1 →
      (GPAB_IRQHandler s).PC_DOUT.testBit 12 = !s.PC_DOUT.testBit 12 ∧
      (∀ i, i ≠ 12 → (GPAB_IRQHandler s).PC_DOUT.testBit i = s.PC_DOUT.testBit i) ∧
      (GPAB_IRQHandler s).receiving = false ∧
      (GPAB_IRQHandler s).TIMER1_TCSR.testBit 30 = true) ∧
    (s.PA_ISRC.testBit 5 = true ∧ s.current_column = COL_3 →
      (GPAB_IRQHandler s).PC_DOUT.testBit 15 = !s.PC_DOUT.testBit 15 ∧
      (∀ i, i ≠ 15 → (GPAB_IRQHandler s).PC_DOUT.testBit i = s.PC_DOUT.testBit i) ∧
      (GPAB_IRQHandler s).receiving = false ∧
      (GPAB_IRQHandler s).TIMER1_TCSR.testBit 30 = true) := by
  have htcsr : (GPAB_IRQHandler s).TIMER1_TCSR.testBit 30 = true := by
    rw [GPAB_TIMER1_TCSR, if_pos hrecv]
    exact testBit_or_two_pow_self _ _
  refine ⟨fun h1 => ?_, fun h9 => ?_⟩
  · have hk1 : K1_PRESSED s = true := (K1_PRESSED_iff s).2 h1
    have hd : (GPAB_IRQHandler s).PC_DOUT = s.PC_DOUT ^^^ 2 ^ 12 := by
      rw [GPAB_PC_DOUT, if_pos hrecv, if_pos hk1]
    rw [hd]
    exact ⟨testBit_xor_two_pow_self _ _,
      fun i hi => testBit_xor_two_pow_of_ne _ _ _ hi, GPAB_receiving s, htcsr⟩
  · have hk1 : ¬ K1_PRESSED s = true := by
      rw [K1_PRESSED_iff]
      rintro ⟨_, hc⟩
      rw [h9.2] at hc
      exact absurd hc (by decide)
    have hk9 : K9_PRESSED s = true := (K9_PRESSED_iff s).2 h9
    have hd : (GPAB_IRQHandler s).PC_DOUT = s.PC_DOUT ^^^ 2 ^ 15 := by
      rw [GPAB_PC_DOUT, if_pos hrecv, if_neg hk1, if_pos hk9]
    rw [hd]
    exact ⟨testBit_xor_two_pow_self _ _,
      fun i hi => testBit_xor_two_pow_of_ne _ _ _ hi, GPAB_receiving s, htcsr⟩

/-- Witness for C2: key K1 while column 1 is active and the gate is open. -/
theorem C2_bound_pair_toggles_once_witness :
    stateK1.receiving = true ∧
    (GPAB_IRQHandler stateK1).PC_DOUT.testBit 12 = !stateK1.PC_DOUT.testBit 12 :=
  ⟨rfl, ((C2_bound_pair_toggles_once stateK1 rfl).1 ⟨by decide, rfl⟩).1⟩

/-- C3: with the gate closed (`receiving = false`), whatever `current_column`
and `PA->ISRC` hold, `GPAB_IRQHandler` leaves `PC->DOUT`, `receiving`,
`TIMER1->TCSR` and `current_column` unchanged. -/
theorem C3_closed_gate_drops_event (s : State) (hrecv : s.receiving = false) :
    (GPAB_IRQHandler s).PC_DOUT = s.PC_DOUT ∧
    (GPAB_IRQHandler s).receiving = false ∧
    (GPAB_IRQHandler s).TIMER1_TCSR = s.TIMER1_TCSR ∧
    (GPAB_IRQHandler s).current_column = s.current_column := by
  refine ⟨?_, GPAB_receiving s, ?_, GPAB_current_column s⟩
  · rw [GPAB_PC_DOUT, hrecv]; rfl
  · rw [GPAB_TIMER1_TCSR, hrecv]; rfl

/-- Witness for C3: scenario D, row 1 on column 1 with the gate closed. -/
theorem C3_closed_gate_drops_event_witness :
    stateClosedK1.receiving = false ∧
    (GPAB_IRQHandler stateClosedK1).PC_DOUT = stateClosedK1.PC_DOUT ∧
    (GPAB_IRQHandler stateClosedK1).TIMER1_TCSR = stateClosedK1.TIMER1_TCSR :=
  ⟨rfl, (C3_closed_gate_drops_event stateClosedK1 rfl).1,
    (C3_closed_gate_drops_event stateClosedK1 rfl).2.2.1⟩

/-- C4: along any finite sequence of `TMR0_IRQHandler` ticks and
`GPAB_IRQHandler` row-edge events (arbitrary `PA->ISRC` values) without a
`TMR1_IRQHandler` expiry, at most one handler invocation changes `PC->DOUT`,
and the final `PC->DOUT` differs from the initial one in at most one bit.  In
particular, when the sequence starts with a row-edge event for a bound pair
issued from an open gate, every further event of the sequence (a second
row-edge event for the same pair included) leaves the output alone: the bound
output is toggled exactly once. -/
theorem C4_at_most_one_toggle (s : State) (es : List Event)
    (hno : ∀ e ∈ es, e.noExpiry = true) :
    toggles s es ≤ 1 ∧
    (∀ i j, (run s es).PC_DOUT.testBit i ≠ s.PC_DOUT.testBit i →
      (run s es).PC_DOUT.testBit j ≠ s.PC_DOUT.testBit j → i = j) ∧
    (∀ isrc rest, es = Event.rowEdge isrc :: rest → s.receiving = true →
      s.current_column = COL_1 → isrc.testBit 3 = true →
      toggles s es = 1 ∧ (run s es).PC_DOUT = s.PC_DOUT ^^^ 2 ^ 12) ∧
    (∀ isrc rest, es = Event.rowEdge isrc :: rest → s.receiving = true →
      s.current_column = COL_3 → isrc.testBit 5 = true →
      toggles s es = 1 ∧ (run s es).PC_DOUT = s.PC_DOUT ^^^ 2 ^ 15) := by
  have key : ∀ (isrc : Nat) (rest : List Event) (k : Nat),
      es = Event.rowEdge isrc :: rest →
      (step s (Event.rowEdge isrc)).PC_DOUT = s.PC_DOUT ^^^ 2 ^ k →
      toggles s es = 1 ∧ (run s es).PC_DOUT = s.PC_DOUT ^^^ 2 ^ k := by
    intro isrc rest k hes hstep
    subst hes
    have hrest : ∀ e' ∈ rest, e'.noExpiry = true :=
      fun e' he' => hno e' (List.mem_cons_of_mem _ he')
    have hz : toggles (step s (Event.rowEdge isrc)) rest = 0 :=
      toggles_closed rest _ (GPAB_receiving _) hrest
    have hpc := (run_closed rest (step s (Event.rowEdge isrc)) (GPAB_receiving _) hrest).2
    have hne : ¬ (step s (Event.rowEdge isrc)).PC_DOUT = s.PC_DOUT := by
      rw [hstep]
      exact xor_two_pow_ne _ _
    refine ⟨?_, ?_⟩
    · show (if (step s (Event.rowEdge isrc)).PC_DOUT = s.PC_DOUT then 0 else 1)
        + toggles (step s (Event.rowEdge isrc)) rest = 1
      rw [if_neg hne, hz]
    · rw [run_cons, hpc, hstep]
  refine ⟨toggles_le_one es s hno, ?_, ?_, ?_⟩
  · intro i j hi hj
    rcases run_PC_DOUT_cases es s hno with h | h | h
    · rw [h] at hi
      exact absurd rfl hi
    · rw [differ_one_bit _ _ 12 h i hi, differ_one_bit _ _ 12 h j hj]
    · rw [differ_one_bit _ _ 15 h i hi, differ_one_bit _ _ 15 h j hj]
  · intro isrc rest hes hrecv hcol hbit
    exact key isrc rest 12 hes (rowEdge_K1_PC_DOUT s isrc hrecv hcol hbit)
  · intro isrc rest hes hrecv hcol hbit
    exact key isrc rest 15 hes (rowEdge_K9_PC_DOUT s isrc hrecv hcol hbit)

/-- Witness for C4: key K1 reported twice in a row from the open gate toggles
LED5 once. -/
theorem C4_at_most_one_toggle_witness :
    (∀ e ∈ [Event.rowEdge 8, Event.rowEdge 8], e.noExpiry = true) ∧
    toggles State.zero [Event.rowEdge 8, Event.rowEdge 8] = 1 ∧
    (run State.zero [Event.rowEdge 8, Event.rowEdge 8]).PC_DOUT
      = State.zero.PC_DOUT ^^^ 2 ^ 12 :=
  ⟨by decide,
   (C4_at_most_one_toggle State.zero [Event.rowEdge 8, Event.rowEdge 8] (by decide)).2.2.1
     8 [Event.rowEdge 8] rfl rfl rfl (by decide)⟩

/-- C5: from a valid column, after one `TMR0_IRQHandler` tick the new column is
valid, the `PA->DOUT` bit of the new active column (bit 2 for `COL_1`, bit 1
for `COL_2`, bit 0 for `COL_3`) is 0 while the other two column bits are 1, and
the row bits 3, 4 and 5 of `PA->DOUT` are 1. -/
theorem C5_active_column_low (s : State) (h : validColumn s.current_column) :
    validColumn (TMR0_IRQHandler s).current_column ∧
    ((TMR0_IRQHandler s).current_column = COL_1 →
      (TMR0_IRQHandler s).PA_DOUT.testBit 2 = false ∧
      (TMR0_IRQHandler s).PA_DOUT.testBit 1 = true ∧
      (TMR0_IRQHandler s).PA_DOUT.testBit 0 = true) ∧
    ((TMR0_IRQHandler s).current_column = COL_2 →
      (TMR0_IRQHandler s).PA_DOUT.testBit 2 = true ∧
      (TMR0_IRQHandler s).PA_DOUT.testBit 1 = false ∧
      (TMR0_IRQHandler s).PA_DOUT.testBit 0 = true) ∧
    ((TMR0_IRQHandler s).current_column = COL_3 →
      (TMR0_IRQHandler s).PA_DOUT.testBit 2 = true ∧
      (TMR0_IRQHandler s).PA_DOUT.testBit 1 = true ∧
      (TMR0_IRQHandler s).PA_DOUT.testBit 0 = false) ∧
    (TMR0_IRQHandler s).PA_DOUT.testBit 3 = true ∧
    (TMR0_IRQHandler s).PA_DOUT.testBit 4 = true ∧
    (TMR0_IRQHandler s).PA_DOUT.testBit 5 = true := by
  rw [TMR0_PA_DOUT, TMR0_current_column]
  rcases h with h | h | h <;> rw [h]
  · rw [advance_column_COL_1]
    have hd := drive_columns_COL_2 s.PA_DOUT
    exact ⟨Or.inr (Or.inl rfl), fun hc => absurd hc (by decide),
      fun _ => ⟨hd.1, hd.2.1, hd.2.2.1⟩, fun hc => absurd hc (by decide),
      hd.2.2.2.1, hd.2.2.2.2.1, hd.2.2.2.2.2⟩
  · rw [advance_column_COL_2]
    have hd := drive_columns_COL_3 s.PA_DOUT
    exact ⟨Or.inr (Or.inr rfl), fun hc => absurd hc (by decide),
      fun hc => absurd hc (by decide), fun _ => ⟨hd.1, hd.2.1, hd.2.2.1⟩,
      hd.2.2.2.1, hd.2.2.2.2.1, hd.2.2.2.2.2⟩
  · rw [advance_column_COL_3]
    have hd := drive_columns_COL_1 s.PA_DOUT
    exact ⟨Or.inl rfl, fun _ => ⟨hd.1, hd.2.1, hd.2.2.1⟩,
      fun hc => absurd hc (by decide), fun hc => absurd hc (by decide),
      hd.2.2.2.1, hd.2.2.2.2.1, hd.2.2.2.2.2⟩

/-- Witness for C5: the first tick after start-up activates column 2. -/
theorem C5_active_column_low_witness :
    validColumn State.zero.current_column ∧
    (TMR0_IRQHandler State.zero).current_column = COL_2 ∧
    (TMR0_IRQHandler State.zero).PA_DOUT.testBit 2 = true ∧
    (TMR0_IRQHandler State.zero).PA_DOUT.testBit 1 = false ∧
    (TMR0_IRQHandler State.zero).PA_DOUT.testBit 0 = true :=
  ⟨Or.inl rfl, rfl, (C5_active_column_low State.zero (Or.inl rfl)).2.2.1 rfl⟩

/-- C6: with the gate open (`receiving = true`), when neither bound pair matches
(not (`PA->ISRC` bit 3 set and `current_column = COL_1`) and not (`PA->ISRC`
bit 5 set and `current_column = COL_3`)) `GPAB_IRQHandler` leaves `PC->DOUT`
unchanged, sets `receiving` to false and sets bit 30 of `TIMER1->TCSR`; every
event with `current_column = COL_2` is such an unmatched event. -/
theorem C6_unbound_pair_no_toggle (s : State) (hrecv : s.receiving = true) :
    (¬ (s.PA_ISRC.testBit 3 = true ∧ s.current_column = COL_1) ∧
     ¬ (s.PA_ISRC.testBit 5 = true ∧ s.current_column = COL_3) →
      (GPAB_IRQHandler s).PC_DOUT = s.PC_DOUT ∧
      (GPAB_IRQHandler s).receiving = false ∧
      (GPAB_IRQHandler s).TIMER1_TCSR.testBit 30 = true) ∧
    (s.current_column = COL_2 →
      ¬ (s.PA_ISRC.testBit 3 = true ∧ s.current_column = COL_1) ∧
      ¬ (s.PA_ISRC.testBit 5 = true ∧ s.current_column = COL_3)) := by
  refine ⟨fun hno => ⟨?_, GPAB_receiving s, ?_⟩, fun hc => ⟨?_, ?_⟩⟩
  · have hk1 : ¬ K1_PRESSED s = true := fun hk => hno.1 ((K1_PRESSED_iff s).1 hk)
    have hk9 : ¬ K9_PRESSED s = true := fun hk => hno.2 ((K9_PRESSED_iff s).1 hk)
    rw [GPAB_PC_DOUT, if_pos hrecv, if_neg hk1, if_neg hk9]
  · rw [GPAB_TIMER1_TCSR, if_pos hrecv]
    exact testBit_or_two_pow_self _ _
  · rintro ⟨_, h⟩
    rw [hc] at h
    exact absurd h (by decide)
  · rintro ⟨_, h⟩
    rw [hc] at h
    exact absurd h (by decide)

/-- Witness for C6: scenario C, every row latched while column 2 is active. -/
theorem C6_unbound_pair_no_toggle_witness :
    stateCol2.receiving = true ∧
    (GPAB_IRQHandler stateCol2).PC_DOUT = stateCol2.PC_DOUT ∧
    (GPAB_IRQHandler stateCol2).receiving = false ∧
    (GPAB_IRQHandler stateCol2).TIMER1_TCSR.testBit 30 = true :=
  ⟨rfl, (C6_unbound_pair_no_toggle stateCol2 rfl).1
    ((C6_unbound_pair_no_toggle stateCol2 rfl).2 rfl)⟩

/-- C7 as stated fails: from the out-of-range value 5 a tick does not bring
`current_column` back to `COL_1`; it stores 6. -/
theorem C7_counterexample :
    ¬ validColumn stateCol5.current_column ∧
    (TMR0_IRQHandler stateCol5).current_column = 6 ∧
    (TMR0_IRQHandler stateCol5).current_column ≠ COL_1 := by
  refine ⟨?_, by decide, by decide⟩
  rintro (h | h | h) <;> exact absurd h (by decide)

/-- C7 (amended): from a column value outside `COL_1`, `COL_2`, `COL_3` (an
`int` below `INT_MAX`) a `TMR0_IRQHandler` tick stores `current_column + 1`;
nothing is coerced, and the result is `COL_1` exactly when the old value was
`-1`. -/
theorem C7_out_of_range_increments (s : State)
    (h : ¬ validColumn s.current_column)
    (hlo : -2 ^ 31 ≤ s.current_column) (hhi : s.current_column < 2 ^ 31 - 1) :
    (TMR0_IRQHandler s).current_column = s.current_column + 1 ∧
    ((TMR0_IRQHandler s).current_column = COL_1 ↔ s.current_column = -1) := by
  have h3 : s.current_column ≠ COL_3 := fun hc => h (Or.inr (Or.inr hc))
  have hadv : (TMR0_IRQHandler s).current_column = s.current_column + 1 := by
    rw [TMR0_current_column, advance_column, if_neg h3]
    unfold wrapInt32
    omega
  rw [hadv]
  refine ⟨rfl, ?_⟩
  unfold COL_1
  omega

/-- Witness for C7 (amended): from 5 the tick stores 6. -/
theorem C7_out_of_range_increments_witness :
    ¬ validColumn stateCol5.current_column ∧
    (TMR0_IRQHandler stateCol5).current_column = stateCol5.current_column + 1 :=
  ⟨fun h => by rcases h with h | h | h <;> exact absurd h (by decide),
   (C7_out_of_range_increments stateCol5
      (fun h => by rcases h with h | h | h <;> exact absurd h (by decide))
      (by decide) (by decide)).1⟩

/-- C8: in every state reached from the initial state (`current_column = COL_1`,
`receiving = true`) by a finite sequence of `TMR0_IRQHandler`,
`TMR1_IRQHandler` and `GPAB_IRQHandler` invocations with arbitrary `PA->ISRC`
inputs, `current_column` is one of `COL_1`, `COL_2`, `COL_3`. -/
theorem C8_column_always_valid (s : State) (hinit : isInitial s) (es : List Event) :
    validColumn (run s es).current_column :=
  run_validColumn es s (Or.inl hinit.1)

/-- Witness for C8: a tick, a key press, an expiry and two more ticks. -/
theorem C8_column_always_valid_witness :
    isInitial State.zero ∧
    validColumn (run State.zero
      [Event.tick, Event.rowEdge 8, Event.expiry, Event.tick, Event.tick]).current_column :=
  ⟨⟨rfl, rfl⟩, C8_column_always_valid State.zero ⟨rfl, rfl⟩ _⟩

/-- C9: from a state with the gate closed (`receiving = false`), after every
step of any finite sequence of `TMR0_IRQHandler` ticks and `GPAB_IRQHandler`
row-edge events `receiving` is still false; a single handler invocation that
takes `receiving` from false to true is a `TMR1_IRQHandler` expiry. -/
theorem C9_closed_until_expiry (s : State) (hrecv : s.receiving = false)
    (es : List Event) (hno : ∀ e ∈ es, e.noExpiry = true) :
    (∀ n, (run s (es.take n)).receiving = false) ∧
    (∀ (s' : State) (e : Event), s'.receiving = false →
      (step s' e).receiving = true → e = Event.expiry) := by
  refine ⟨fun n => ?_, fun s' e hs' he => ?_⟩
  · exact (run_closed (es.take n) s hrecv
      (fun e he => hno e (List.mem_of_mem_take he))).1
  · cases e with
    | expiry => rfl
    | tick =>
      rw [step_receiving_closed s' Event.tick hs' rfl] at he
      exact absurd he (by decide)
    | rowEdge isrc =>
      rw [step_receiving_closed s' (Event.rowEdge isrc) hs' rfl] at he
      exact absurd he (by decide)

/-- Witness for C9: ticks and key presses against a closed gate. -/
theorem C9_closed_until_expiry_witness :
    stateClosedK1.receiving = false ∧
    (∀ e ∈ [Event.tick, Event.rowEdge 8, Event.tick, Event.rowEdge 32],
      e.noExpiry = true) ∧
    (∀ n, (run stateClosedK1
      ([Event.tick, Event.rowEdge 8, Event.tick, Event.rowEdge 32].take n)).receiving
        = false) :=
  ⟨rfl, by decide, (C9_closed_until_expiry stateClosedK1 rfl _ (by decide)).1⟩

/-- C10: in every state `TMR1_IRQHandler` yields `receiving = true`, leaves
`current_column` and `PC->DOUT` unchanged, and writes `TIMER1->TISR` with its
acknowledge bit 0 set (the other bits as read). -/
theorem C10_expiry_opens_gate (s : State) :
    (TMR1_IRQHandler s).receiving = true ∧
    (TMR1_IRQHandler s).current_column = s.current_column ∧
    (TMR1_IRQHandler s).PC_DOUT = s.PC_DOUT ∧
    (TMR1_IRQHandler s).TIMER1_TISR.testBit 0 = true ∧
    (TMR1_IRQHandler s).TIMER1_TISR = s.TIMER1_TISR ||| 1 := by
  refine ⟨rfl, rfl, rfl, ?_, rfl⟩
  exact testBit_or_two_pow_self _ 0

/-- C11: for every register state and every argument tuple, `TIMER0_init` and
`TIMER1_init` leave their timer's `TCMPR` equal to 1000 when `cmp_val < 2` or
`cmp_val > 16777215`, in particular for `cmp_val = 1`, and equal to `cmp_val`
otherwise, that is when `2 <= cmp_val <= 16777215`. -/
theorem C11_compare_value_default (clksrc prescale mode cmp_val : Nat) (s : State) :
    (TIMER0_init clksrc prescale mode cmp_val s).TIMER0_TCMPR
      = (if cmp_val < 2 ∨ cmp_val > 16777215 then 1000 else cmp_val) ∧
    (TIMER1_init clksrc prescale mode cmp_val s).TIMER1_TCMPR
      = (if cmp_val < 2 ∨ cmp_val > 16777215 then 1000 else cmp_val) ∧
    ((cmp_val < 2 ∨ cmp_val > 16777215) ↔ ¬ (2 ≤ cmp_val ∧ cmp_val ≤ 16777215)) ∧
    (TIMER0_init clksrc prescale mode 1 s).TIMER0_TCMPR = 1000 ∧
    (TIMER1_init clksrc prescale mode 1 s).TIMER1_TCMPR = 1000 := by
  refine ⟨TIMER0_init_TCMPR _ _ _ _ s, TIMER1_init_TCMPR _ _ _ _ s, ?_, ?_, ?_⟩
  · omega
  · rw [TIMER0_init_TCMPR]; rfl
  · rw [TIMER1_init_TCMPR]; rfl

/-- C13: for every value of `PC->DOUT`, `LED5_toggle` applied twice and
`LED8_toggle` applied twice each return `PC->DOUT` (indeed the whole state) to
its original value. -/
theorem C13_toggle_twice_identity (s : State) :
    (LED5_toggle (LED5_toggle s)).PC_DOUT = s.PC_DOUT ∧
    (LED8_toggle (LED8_toggle s)).PC_DOUT = s.PC_DOUT ∧
    LED5_toggle (LED5_toggle s) = s ∧
    LED8_toggle (LED8_toggle s) = s := by
  have h5 : (LED5_toggle (LED5_toggle s)).PC_DOUT = s.PC_DOUT := by
    rw [LED5_toggle_PC_DOUT, LED5_toggle_PC_DOUT]
    exact Nat.xor_cancel_right _ _
  have h8 : (LED8_toggle (LED8_toggle s)).PC_DOUT = s.PC_DOUT := by
    rw [LED8_toggle_PC_DOUT, LED8_toggle_PC_DOUT]
    exact Nat.xor_cancel_right _ _
  refine ⟨h5, h8, ?_, ?_⟩
  · have e : LED5_toggle (LED5_toggle s)
        = { s with PC_DOUT := (LED5_toggle (LED5_toggle s)).PC_DOUT } := rfl
    rw [e, h5]
  · have e : LED8_toggle (LED8_toggle s)
        = { s with PC_DOUT := (LED8_toggle (LED8_toggle s)).PC_DOUT } := rfl
    rw [e, h8]

/-- C14: for every state (hence every `PA->ISRC` input) `GPAB_IRQHandler` and
`TMR1_IRQHandler` leave `current_column` unchanged, and `TMR0_IRQHandler`
leaves `receiving`, `PC->DOUT` and `TIMER1->TCSR` unchanged. -/
theorem C14_single_writer_frames (s : State) :
    (GPAB_IRQHandler s).current_column = s.current_column ∧
    (TMR1_IRQHandler s).current_column = s.current_column ∧
    (TMR0_IRQHandler s).receiving = s.receiving ∧
    (TMR0_IRQHandler s).PC_DOUT = s.PC_DOUT ∧
    (TMR0_IRQHandler s).TIMER1_TCSR = s.TIMER1_TCSR :=
  ⟨GPAB_current_column s, rfl, rfl, rfl, rfl⟩

/-- C17: for every value of `PC->DOUT`, `LED5_toggle` changes bit 12 and no
other bit, `LED8_toggle` changes bit 15 and no other bit, and the two commute:
either order of the two toggles gives the same `PC->DOUT` (indeed the same
state). -/
theorem C17_toggles_independent (s : State) :
    (LED5_toggle s).PC_DOUT.testBit 12 = !s.PC_DOUT.testBit 12 ∧
    (∀ i, i ≠ 12 → (LED5_toggle s).PC_DOUT.testBit i = s.PC_DOUT.testBit i) ∧
    (LED8_toggle s).PC_DOUT.testBit 15 = !s.PC_DOUT.testBit 15 ∧
    (∀ i, i ≠ 15 → (LED8_toggle s).PC_DOUT.testBit i = s.PC_DOUT.testBit i) ∧
    (LED8_toggle (LED5_toggle s)).PC_DOUT = (LED5_toggle (LED8_toggle s)).PC_DOUT ∧
    LED8_toggle (LED5_toggle s) = LED5_toggle (LED8_toggle s) := by
  have hc : (LED8_toggle (LED5_toggle s)).PC_DOUT
      = (LED5_toggle (LED8_toggle s)).PC_DOUT := by
    rw [LED8_toggle_PC_DOUT, LED5_toggle_PC_DOUT, LED5_toggle_PC_DOUT, LED8_toggle_PC_DOUT]
    exact xor_right_comm _ _ _
  refine ⟨?_, ?_, ?_, ?_, hc, ?_⟩
  · rw [LED5_toggle_PC_DOUT]; exact testBit_xor_two_pow_self _ _
  · intro i hi
    rw [LED5_toggle_PC_DOUT]; exact testBit_xor_two_pow_of_ne _ _ _ hi
  · rw [LED8_toggle_PC_DOUT]; exact testBit_xor_two_pow_self _ _
  · intro i hi
    rw [LED8_toggle_PC_DOUT]; exact testBit_xor_two_pow_of_ne _ _ _ hi
  · have e1 : LED8_toggle (LED5_toggle s)
        = { s with PC_DOUT := (LED8_toggle (LED5_toggle s)).PC_DOUT } := rfl
    have e2 : LED5_toggle (LED8_toggle s)
        = { s with PC_DOUT := (LED5_toggle (LED8_toggle s)).PC_DOUT } := rfl
    rw [e1, e2, hc]

/-- C18: on every invocation, gate open or closed and whatever `PA->ISRC`
holds, the value `GPAB_IRQHandler` finally writes to `PA->ISRC` has the row
bits 3, 4 and 5 set, as part of having every bit 0 to 15 set in both
`PA->ISRC` and `PB->ISRC`. -/
theorem C18_acknowledge_always (s : State) :
    (GPAB_IRQHandler s).PA_ISRC.testBit 3 = true ∧
    (GPAB_IRQHandler s).PA_ISRC.testBit 4 = true ∧
    (GPAB_IRQHandler s).PA_ISRC.testBit 5 = true ∧
    (∀ i, i < 16 → (GPAB_IRQHandler s).PA_ISRC.testBit i = true) ∧
    (∀ i, i < 16 → (GPAB_IRQHandler s).PB_ISRC.testBit i = true) := by
  have ha : ∀ i, i < 16 → (GPAB_IRQHandler s).PA_ISRC.testBit i = true := by
    intro i hi
    rw [GPAB_PA_ISRC]
    exact testBit_or_low_mask _ 16 i hi
  have hb : ∀ i, i < 16 → (GPAB_IRQHandler s).PB_ISRC.testBit i = true := by
    intro i hi
    rw [GPAB_PB_ISRC]
    exact testBit_or_low_mask _ 16 i hi
  exact ⟨ha 3 (by decide), ha 4 (by decide), ha 5 (by decide), ha, hb⟩

/-- C12 (what the code does): after the initialisation performed by `main`,
from any register state, the 2-bit field `Key_Matrix_init` programs for
GPAB_INT (bits 15:14 of `NVIC->IP[1]`) holds 1, not 0: the same value as the
fields of Timer 0 (`NVIC->IP[2]` bits 7:6) and Timer 1 (`NVIC->IP[2]` bits
15:14), so the row-edge interrupt is not configured strictly above the
timers. -/
theorem C12_gpab_priority_equals_timers (s : State) :
    bitfield (main s).NVIC_IP1 14 2 = 1 ∧
    bitfield (main s).NVIC_IP1 14 2 ≠ 0 ∧
    bitfield (main s).NVIC_IP2 6 2 = 1 ∧
    bitfield (main s).NVIC_IP2 14 2 = 1 := by
  have h1 : bitfield (main s).NVIC_IP1 14 2 = 1 := by
    rw [main_NVIC_IP1]
    apply bitfield_eq_of_testBit _ _ _ _ (by decide)
    intro i hi
    simp only [Nat.testBit_or, Nat.testBit_and]
    interval_cases i <;> cases s.NVIC_IP1.testBit _ <;> decide
  refine ⟨h1, ?_, ?_, ?_⟩
  · rw [h1]; decide
  · rw [main_NVIC_IP2]
    apply bitfield_eq_of_testBit _ _ _ _ (by decide)
    intro i hi
    simp only [Nat.testBit_or, Nat.testBit_and]
    interval_cases i <;> cases s.NVIC_IP2.testBit _ <;> decide
  · rw [main_NVIC_IP2]
    apply bitfield_eq_of_testBit _ _ _ _ (by decide)
    intro i hi
    simp only [Nat.testBit_or, Nat.testBit_and]
    interval_cases i <;> cases s.NVIC_IP2.testBit _ <;> decide

/-- C15: for every register state and every argument tuple, `TIMER0_init` and
`TIMER1_init` leave the mode field `TCSR[28:27]` of their timer equal to `mode`
when `mode` is `ONE_SHOT`, `PERIODIC`, `TOGGLE` or `CONTINUOUS`, and equal to
`PERIODIC` for every other value; the call
`TIMER1_init(HXT_12M, 5, ONE_SHOT, 1000000)` of `main` leaves field 0 (one-shot)
and `TCMPR = 1000000`, also at the end of `main`. -/
theorem C15_mode_default (clksrc prescale mode cmp_val : Nat) (s : State) :
    bitfield (TIMER0_init clksrc prescale mode cmp_val s).TIMER0_TCSR 27 2
      = (if mode = ONE_SHOT ∨ mode = PERIODIC ∨ mode = TOGGLE ∨ mode = CONTINUOUS
          then mode else PERIODIC) ∧
    bitfield (TIMER1_init clksrc prescale mode cmp_val s).TIMER1_TCSR 27 2
      = (if mode = ONE_SHOT ∨ mode = PERIODIC ∨ mode = TOGGLE ∨ mode = CONTINUOUS
          then mode else PERIODIC) ∧
    bitfield (TIMER1_init HXT_12M 5 ONE_SHOT 1000000 s).TIMER1_TCSR 27 2 = 0 ∧
    (TIMER1_init HXT_12M 5 ONE_SHOT 1000000 s).TIMER1_TCMPR = 1000000 ∧
    bitfield (main s).TIMER1_TCSR 27 2 = 0 ∧
    (main s).TIMER1_TCMPR = 1000000 := by
  refine ⟨?_, ?_, ?_, rfl, ?_, rfl⟩
  · rw [TIMER0_init_TCSR, timer_TCSR_mode_field]
  · rw [TIMER1_init_TCSR, timer_TCSR_mode_field]
  · rw [TIMER1_init_TCSR, timer_TCSR_mode_field]
    decide
  · rw [main_TIMER1_TCSR, timer_TCSR_mode_field]
    decide

/-- C16: for every register state and every argument tuple (`prescale` being a
`uint8_t`, at most 255), `TIMER0_init` and `TIMER1_init` leave the prescale
field `TCSR[7:0]` of their timer equal to 5 when `prescale < 3` and equal to
`prescale` when `3 <= prescale <= 255`, whatever the field held before. -/
theorem C16_prescale_default (clksrc prescale mode cmp_val : Nat) (s : State)
    (hp : prescale ≤ 255) :
    bitfield (TIMER0_init clksrc prescale mode cmp_val s).TIMER0_TCSR 0 8
      = (if prescale < 3 then 5 else prescale) ∧
    bitfield (TIMER1_init clksrc prescale mode cmp_val s).TIMER1_TCSR 0 8
      = (if prescale < 3 then 5 else prescale) := by
  rw [TIMER0_init_TCSR, TIMER1_init_TCSR]
  exact ⟨timer_TCSR_prescale_field _ _ _ hp, timer_TCSR_prescale_field _ _ _ hp⟩

/-- Witness for C16: prescale 2 is replaced by 5, whatever the field held. -/
theorem C16_prescale_default_witness :
    (2 : Nat) ≤ 255 ∧
    bitfield (TIMER0_init HXT_12M 2 PERIODIC 1000 statePrescaled).TIMER0_TCSR 0 8 = 5 ∧
    bitfield (TIMER1_init HXT_12M 2 PERIODIC 1000 statePrescaled).TIMER1_TCSR 0 8 = 5 :=
  ⟨by decide, C16_prescale_default HXT_12M 2 PERIODIC 1000 statePrescaled (by decide)⟩

/-- C19: starting from the initial state (`current_column = COL_1`,
`receiving = true`, any `PA->DOUT`), after every finite sequence of
`TMR0_IRQHandler`, `TMR1_IRQHandler` and `GPAB_IRQHandler` invocations that
contains at least one tick, `current_column` is valid and the `PA->DOUT` bit of
`current_column` (bit 2 for `COL_1`, bit 1 for `COL_2`, bit 0 for `COL_3`) is 0
while the other two column bits are 1. -/
theorem C19_lines_agree_with_column (s : State) (hinit : isInitial s)
    (es : List Event) (htick : Event.tick ∈ es) :
    validColumn (run s es).current_column ∧
    (run s es).PA_DOUT.testBit 2 = !decide ((run s es).current_column = COL_1) ∧
    (run s es).PA_DOUT.testBit 1 = !decide ((run s es).current_column = COL_2) ∧
    (run s es).PA_DOUT.testBit 0 = !decide ((run s es).current_column = COL_3) :=
  ⟨run_validColumn es s (Or.inl hinit.1),
    run_columnLinesAgree es s (Or.inl hinit.1) (Or.inr htick)⟩

/-- Witness for C19: a key press, one tick, then the debounce expiry. -/
theorem C19_lines_agree_with_column_witness :
    isInitial State.zero ∧
    Event.tick ∈ [Event.rowEdge 8, Event.tick, Event.expiry] ∧
    (run State.zero [Event.rowEdge 8, Event.tick, Event.expiry]).current_column = COL_2 ∧
    (run State.zero [Event.rowEdge 8, Event.tick, Event.expiry]).PA_DOUT.testBit 1
      = !decide ((run State.zero
          [Event.rowEdge 8, Event.tick, Event.expiry]).current_column = COL_2) :=
  ⟨⟨rfl, rfl⟩, by decide, by decide,
    (C19_lines_agree_with_column State.zero ⟨rfl, rfl⟩
      [Event.rowEdge 8, Event.tick, Event.expiry] (by decide)).2.2.1⟩

/-- C20: for every register state and all arguments, `TIMER1_init` leaves
`CLK->CLKSEL1` bits 10:8, `CLK->APBCLK` bit 2, `NVIC->ISER[0]` bit 8 and
`NVIC->IP[2]` bits 7:6 unchanged, `TIMER0_init` leaves `CLK->CLKSEL1` bits
14:12, `CLK->APBCLK` bit 3, `NVIC->ISER[0]` bit 9 and `NVIC->IP[2]` bits 15:14
unchanged, and `TIMER0_init` followed by `TIMER1_init` produces the same state
as `TIMER1_init` followed by `TIMER0_init`. -/
theorem C20_timer_inits_independent (c0 p0 m0 v0 c1 p1 m1 v1 : Nat) (s : State) :
    (bitfield (TIMER1_init c1 p1 m1 v1 s).CLK_CLKSEL1 8 3 = bitfield s.CLK_CLKSEL1 8 3 ∧
      (TIMER1_init c1 p1 m1 v1 s).CLK_APBCLK.testBit 2 = s.CLK_APBCLK.testBit 2 ∧
      (TIMER1_init c1 p1 m1 v1 s).NVIC_ISER0.testBit 8 = s.NVIC_ISER0.testBit 8 ∧
      bitfield (TIMER1_init c1 p1 m1 v1 s).NVIC_IP2 6 2 = bitfield s.NVIC_IP2 6 2) ∧
    (bitfield (TIMER0_init c0 p0 m0 v0 s).CLK_CLKSEL1 12 3 = bitfield s.CLK_CLKSEL1 12 3 ∧
      (TIMER0_init c0 p0 m0 v0 s).CLK_APBCLK.testBit 3 = s.CLK_APBCLK.testBit 3 ∧
      (TIMER0_init c0 p0 m0 v0 s).NVIC_ISER0.testBit 9 = s.NVIC_ISER0.testBit 9 ∧
      bitfield (TIMER0_init c0 p0 m0 v0 s).NVIC_IP2 14 2 = bitfield s.NVIC_IP2 14 2) ∧
    TIMER1_init c1 p1 m1 v1 (TIMER0_init c0 p0 m0 v0 s)
      = TIMER0_init c0 p0 m0 v0 (TIMER1_init c1 p1 m1 v1 s) := by
  refine ⟨⟨?_, ?_, ?_, ?_⟩, ⟨?_, ?_, ?_, ?_⟩, timer_init_commute c0 p0 m0 v0 c1 p1 m1 v1 s⟩
  · rw [TIMER1_init_CLKSEL1]; exact timer1_CLKSEL1_frame _ _
  · rw [TIMER1_init_APBCLK]; exact testBit_or_one_shiftLeft_of_ne _ _ _ (by decide)
  · rw [TIMER1_init_ISER0]; exact testBit_or_one_shiftLeft_of_ne _ _ _ (by decide)
  · rw [TIMER1_init_IP2]; exact IP2_frame_low _
  · rw [TIMER0_init_CLKSEL1]; exact timer0_CLKSEL1_frame _ _
  · rw [TIMER0_init_APBCLK]; exact testBit_or_one_shiftLeft_of_ne _ _ _ (by decide)
  · rw [TIMER0_init_ISER0]; exact testBit_or_one_shiftLeft_of_ne _ _ _ (by decide)
  · rw [TIMER0_init_IP2]; exact IP2_frame_high _

end KeyMatrix
